import Mathlib

/- Shallow embedding of the Python-to-JavaScript translator
   (src/lexer.py, src/ast_nodes.py, src/parser.py,
    src/semantic_analyzer.py, src/code_generator.py, src/compiler.py).
   Source inputs are modeled over their ASCII character data; character
   class tests (isdigit, isalpha, isalnum) therefore use the ASCII
   predicates, which agree with Python on every input considered here. -/

namespace PyJS

/-- Literal left brace character, written via its code point. -/
def braceL : Char := Char.ofNat 123

/-- Literal right brace character, written via its code point. -/
def braceR : Char := Char.ofNat 125

/-- Literal double-quote character. -/
def dquote : Char := Char.ofNat 34

/-- Literal single-quote character. -/
def squote : Char := Char.ofNat 39

/-- Literal backslash character. -/
def bslash : Char := Char.ofNat 92

/-- Single-quote as a one-character string (used in diagnostic messages). -/
def sq : String := String.mk [squote]

/-- Token kinds, mirroring the TokenType enum of lexer.py. -/
inductive TokenType where
  | NUMBER | STRING | IDENTIFIER
  | DEF | IF | ELSE | ELIF | FOR | WHILE | RETURN | CLASS
  | IMPORT | FROM | AS | TRUE | FALSE | NONE
  | AND | OR | NOT | IN | IS
  | PLUS | MINUS | MULTIPLY | DIVIDE | MODULO | POWER
  | ASSIGN | PLUS_ASSIGN | MINUS_ASSIGN
  | EQ | NE | LT | LE | GT | GE
  | LPAREN | RPAREN | LBRACKET | RBRACKET | LBRACE | RBRACE
  | COMMA | COLON | DOT
  | NEWLINE | INDENT | DEDENT | EOF
  deriving DecidableEq, Repr

/-- Display of a token kind, as Python renders str(TokenType.X). -/
def tokenTypeStr : TokenType → String
  | .NUMBER => "TokenType.NUMBER"
  | .STRING => "TokenType.STRING"
  | .IDENTIFIER => "TokenType.IDENTIFIER"
  | .DEF => "TokenType.DEF"
  | .IF => "TokenType.IF"
  | .ELSE => "TokenType.ELSE"
  | .ELIF => "TokenType.ELIF"
  | .FOR => "TokenType.FOR"
  | .WHILE => "TokenType.WHILE"
  | .RETURN => "TokenType.RETURN"
  | .CLASS => "TokenType.CLASS"
  | .IMPORT => "TokenType.IMPORT"
  | .FROM => "TokenType.FROM"
  | .AS => "TokenType.AS"
  | .TRUE => "TokenType.TRUE"
  | .FALSE => "TokenType.FALSE"
  | .NONE => "TokenType.NONE"
  | .AND => "TokenType.AND"
  | .OR => "TokenType.OR"
  | .NOT => "TokenType.NOT"
  | .IN => "TokenType.IN"
  | .IS => "TokenType.IS"
  | .PLUS => "TokenType.PLUS"
  | .MINUS => "TokenType.MINUS"
  | .MULTIPLY => "TokenType.MULTIPLY"
  | .DIVIDE => "TokenType.DIVIDE"
  | .MODULO => "TokenType.MODULO"
  | .POWER => "TokenType.POWER"
  | .ASSIGN => "TokenType.ASSIGN"
  | .PLUS_ASSIGN => "TokenType.PLUS_ASSIGN"
  | .MINUS_ASSIGN => "TokenType.MINUS_ASSIGN"
  | .EQ => "TokenType.EQ"
  | .NE => "TokenType.NE"
  | .LT => "TokenType.LT"
  | .LE => "TokenType.LE"
  | .GT => "TokenType.GT"
  | .GE => "TokenType.GE"
  | .LPAREN => "TokenType.LPAREN"
  | .RPAREN => "TokenType.RPAREN"
  | .LBRACKET => "TokenType.LBRACKET"
  | .RBRACKET => "TokenType.RBRACKET"
  | .LBRACE => "TokenType.LBRACE"
  | .RBRACE => "TokenType.RBRACE"
  | .COMMA => "TokenType.COMMA"
  | .COLON => "TokenType.COLON"
  | .DOT => "TokenType.DOT"
  | .NEWLINE => "TokenType.NEWLINE"
  | .INDENT => "TokenType.INDENT"
  | .DEDENT => "TokenType.DEDENT"
  | .EOF => "TokenType.EOF"

/-- Tokens carry kind, lexeme, line and column, as in lexer.py. -/
structure Token where
  type : TokenType
  value : String
  line : Nat
  column : Nat
  deriving DecidableEq, Repr

/-- Keyword promotion: TokenType(value) for values in Lexer.keywords. -/
def keywordType (value : String) : Option TokenType :=
  if value = "def" then some .DEF
  else if value = "if" then some .IF
  else if value = "else" then some .ELSE
  else if value = "elif" then some .ELIF
  else if value = "for" then some .FOR
  else if value = "while" then some .WHILE
  else if value = "return" then some .RETURN
  else if value = "class" then some .CLASS
  else if value = "import" then some .IMPORT
  else if value = "from" then some .FROM
  else if value = "as" then some .AS
  else if value = "True" then some .TRUE
  else if value = "False" then some .FALSE
  else if value = "None" then some .NONE
  else if value = "and" then some .AND
  else if value = "or" then some .OR
  else if value = "not" then some .NOT
  else if value = "in" then some .IN
  else if value = "is" then some .IS
  else Option.none

/-- Mutable state of the Lexer instance: text, pos, line, column and the
indentation stack. The Python list keeps its top at the last position;
here the head of the list is the top. -/
structure LexState where
  text : List Char
  pos : Nat
  line : Nat
  column : Nat
  indentStack : List Nat
  deriving DecidableEq, Repr

/-- Lexer.current_char. -/
def currentChar (s : LexState) : Option Char := s.text[s.pos]?

/-- Lexer.peek_char at the default offset 1 (the only offset used). -/
def peekChar (s : LexState) : Option Char := s.text[s.pos + 1]?

/-- Lexer.advance. -/
def advance (s : LexState) : LexState :=
  if currentChar s = some '\n' then
    { s with pos := s.pos + 1, line := s.line + 1, column := 1 }
  else
    { s with pos := s.pos + 1, column := s.column + 1 }

/-- Loop body of Lexer.skip_whitespace; the gas argument is an upper bound
on the iteration count (each iteration consumes one character, so the
remaining-text length suffices), not part of the source semantics. -/
def skipWsAux : Nat → LexState → LexState
  | 0, s => s
  | g + 1, s =>
    match currentChar s with
    | some c => if c = ' ' ∨ c = '\t' then skipWsAux g (advance s) else s
    | Option.none => s

/-- Lexer.skip_whitespace. -/
def skipWhitespace (s : LexState) : LexState :=
  skipWsAux (s.text.length - s.pos + 1) s

/-- Comment loop of Lexer.tokenize: consume to end of line. -/
def skipCommentAux : Nat → LexState → LexState
  | 0, s => s
  | g + 1, s =>
    match currentChar s with
    | some c => if c ≠ '\n' then skipCommentAux g (advance s) else s
    | Option.none => s

/-- Consumes a comment body (the branch for the hash character). -/
def skipComment (s : LexState) : LexState :=
  skipCommentAux (s.text.length - s.pos + 1) s

/-- Loop of Lexer.read_number; the consumed characters are accumulated,
which coincides with the source's text[start_pos:pos] slice. -/
def readNumAux : Nat → LexState → List Char → List Char × LexState
  | 0, s, acc => (acc, s)
  | g + 1, s, acc =>
    match currentChar s with
    | some c =>
      if c.isDigit ∨ c = '.' then readNumAux g (advance s) (acc ++ [c])
      else (acc, s)
    | Option.none => (acc, s)

/-- Lexer.read_number. -/
def readNumber (s : LexState) : Token × LexState :=
  let startCol := s.column
  let (cs, s1) := readNumAux (s.text.length - s.pos + 1) s []
  (⟨.NUMBER, String.mk cs, s1.line, startCol⟩, s1)

/-- Loop of Lexer.read_string: characters up to the matching quote, a
backslash appending the following character verbatim. -/
def readStrAux : Nat → LexState → Char → List Char → List Char × LexState
  | 0, s, _, acc => (acc, s)
  | g + 1, s, q, acc =>
    match currentChar s with
    | some c =>
      if c = q then (acc, s)
      else if c = bslash then
        let s1 := advance s
        match currentChar s1 with
        | some c2 => readStrAux g (advance s1) q (acc ++ [c2])
        | Option.none => readStrAux g s1 q acc
      else readStrAux g (advance s) q (acc ++ [c])
    | Option.none => (acc, s)

/-- Lexer.read_string. -/
def readString (s : LexState) : Token × LexState :=
  let q := (currentChar s).getD dquote
  let startCol := s.column
  let s0 := advance s
  let (cs, s1) := readStrAux (s0.text.length - s0.pos + 1) s0 q []
  let s2 := if currentChar s1 = some q then advance s1 else s1
  (⟨.STRING, String.mk cs, s2.line, startCol⟩, s2)

/-- Loop of Lexer.read_identifier. -/
def readIdentAux : Nat → LexState → List Char → List Char × LexState
  | 0, s, acc => (acc, s)
  | g + 1, s, acc =>
    match currentChar s with
    | some c =>
      if c.isAlphanum ∨ c = '_' then readIdentAux g (advance s) (acc ++ [c])
      else (acc, s)
    | Option.none => (acc, s)

/-- Lexer.read_identifier, including keyword promotion. -/
def readIdentifier (s : LexState) : Token × LexState :=
  let startCol := s.column
  let (cs, s1) := readIdentAux (s.text.length - s.pos + 1) s []
  let value := String.mk cs
  let tt := match keywordType value with
    | some k => k
    | Option.none => .IDENTIFIER
  (⟨tt, value, s1.line, startCol⟩, s1)

/-- Measuring loop of Lexer.handle_indentation: space counts 1, tab 4. -/
def measureIndent : Nat → LexState → Nat → Nat × LexState
  | 0, s, acc => (acc, s)
  | g + 1, s, acc =>
    match currentChar s with
    | some c =>
      if c = ' ' then measureIndent g (advance s) (acc + 1)
      else if c = '\t' then measureIndent g (advance s) (acc + 4)
      else (acc, s)
    | Option.none => (acc, s)

/-- Pop loop of Lexer.handle_indentation: pop while the stack top exceeds
the measured level, one DEDENT per pop. -/
def popToLevel (stack : List Nat) (level line col : Nat) : List Token × List Nat :=
  match stack with
  | [] => ([], [])
  | top :: rest =>
    if level < top then
      let (ts, st) := popToLevel rest level line col
      (⟨.DEDENT, "", line, col⟩ :: ts, st)
    else ([], stack)

/-- Lexer.handle_indentation. -/
def handleIndentation (s : LexState) : List Token × LexState :=
  let (level, s1) := measureIndent (s.text.length - s.pos + 1) s 0
  match currentChar s1 with
  | some c =>
    if c = '\n' ∨ c = '#' then ([], s1)
    else
      let current := s1.indentStack.headD 0
      if level > current then
        ([⟨.INDENT, "", s1.line, s1.column⟩],
         { s1 with indentStack := level :: s1.indentStack })
      else if level < current then
        let (ts, st) := popToLevel s1.indentStack level s1.line s1.column
        (ts, { s1 with indentStack := st })
      else ([], s1)
  | Option.none => ([], s1)

/-- Flush loop used both for empty lines and at end of input: while the
stack holds more than the base entry, pop and emit one DEDENT. -/
def flushDedents (stack : List Nat) (line col : Nat) : List Token × List Nat :=
  match stack with
  | _ :: b :: rest =>
    let (ts, st) := flushDedents (b :: rest) line col
    (⟨.DEDENT, "", line, col⟩ :: ts, st)
  | st => ([], st)

/-- Main loop of Lexer.tokenize. One fuel unit is one iteration of the
Python while-loop; the source contains an iteration that consumes no
input (a lone exclamation mark not followed by an equals sign), so the
loop is not total and the model returns none when fuel runs out. -/
def tokenizeLoop : Nat → LexState → List Token → Bool → Option (List Token)
  | 0, _, _, _ => Option.none
  | fuel + 1, s, acc, atLineStart =>
    match currentChar s with
    | Option.none =>
      let (ds, _) := flushDedents s.indentStack s.line s.column
      some (acc ++ ds ++ [⟨.EOF, "", s.line, s.column⟩])
    | some char =>
      if atLineStart ∧ (char = ' ' ∨ char = '\t') then
        let (ts, s1) := handleIndentation s
        tokenizeLoop fuel s1 (acc ++ ts) false
      else if atLineStart ∧ char = '\n' then
        let (ds, st) := flushDedents s.indentStack s.line s.column
        let acc1 := (acc ++ ds) ++ [⟨.NEWLINE, "\n", s.line, s.column⟩]
        tokenizeLoop fuel { advance s with indentStack := st } acc1 true
      else
        let (acc, s) :=
          if atLineStart then
            let (ds, st) := flushDedents s.indentStack s.line s.column
            (acc ++ ds, { s with indentStack := st })
          else (acc, s)
        if char = '\n' then
          tokenizeLoop fuel (advance s)
            (acc ++ [⟨.NEWLINE, "\n", s.line, s.column⟩]) true
        else if char = ' ' ∨ char = '\t' then
          tokenizeLoop fuel (skipWhitespace s) acc false
        else if char = '#' then
          tokenizeLoop fuel (skipComment s) acc false
        else if char.isDigit then
          let (t, s1) := readNumber s
          tokenizeLoop fuel s1 (acc ++ [t]) false
        else if char = dquote ∨ char = squote then
          let (t, s1) := readString s
          tokenizeLoop fuel s1 (acc ++ [t]) false
        else if char.isAlpha ∨ char = '_' then
          let (t, s1) := readIdentifier s
          tokenizeLoop fuel s1 (acc ++ [t]) false
        else if char = '+' then
          if peekChar s = some '=' then
            tokenizeLoop fuel (advance (advance s))
              (acc ++ [⟨.PLUS_ASSIGN, "+=", s.line, s.column⟩]) false
          else
            tokenizeLoop fuel (advance s)
              (acc ++ [⟨.PLUS, "+", s.line, s.column⟩]) false
        else if char = '-' then
          if peekChar s = some '=' then
            tokenizeLoop fuel (advance (advance s))
              (acc ++ [⟨.MINUS_ASSIGN, "-=", s.line, s.column⟩]) false
          else
            tokenizeLoop fuel (advance s)
              (acc ++ [⟨.MINUS, "-", s.line, s.column⟩]) false
        else if char = '*' then
          if peekChar s = some '*' then
            tokenizeLoop fuel (advance (advance s))
              (acc ++ [⟨.POWER, "**", s.line, s.column⟩]) false
          else
            tokenizeLoop fuel (advance s)
              (acc ++ [⟨.MULTIPLY, "*", s.line, s.column⟩]) false
        else if char = '=' then
          if peekChar s = some '=' then
            tokenizeLoop fuel (advance (advance s))
              (acc ++ [⟨.EQ, "==", s.line, s.column⟩]) false
          else
            tokenizeLoop fuel (advance s)
              (acc ++ [⟨.ASSIGN, "=", s.line, s.column⟩]) false
        else if char = '!' then
          if peekChar s = some '=' then
            tokenizeLoop fuel (advance (advance s))
              (acc ++ [⟨.NE, "!=", s.line, s.column⟩]) false
          else
            tokenizeLoop fuel s acc false
        else if char = '<' then
          if peekChar s = some '=' then
            tokenizeLoop fuel (advance (advance s))
              (acc ++ [⟨.LE, "<=", s.line, s.column⟩]) false
          else
            tokenizeLoop fuel (advance s)
              (acc ++ [⟨.LT, "<", s.line, s.column⟩]) false
        else if char = '>' then
          if peekChar s = some '=' then
            tokenizeLoop fuel (advance (advance s))
              (acc ++ [⟨.GE, ">=", s.line, s.column⟩]) false
          else
            tokenizeLoop fuel (advance s)
              (acc ++ [⟨.GT, ">", s.line, s.column⟩]) false
        else
          let acc1 :=
            if char = '/' then acc ++ [⟨.DIVIDE, "/", s.line, s.column⟩]
            else if char = '%' then acc ++ [⟨.MODULO, "%", s.line, s.column⟩]
            else if char = '(' then acc ++ [⟨.LPAREN, "(", s.line, s.column⟩]
            else if char = ')' then acc ++ [⟨.RPAREN, ")", s.line, s.column⟩]
            else if char = '[' then acc ++ [⟨.LBRACKET, "[", s.line, s.column⟩]
            else if char = ']' then acc ++ [⟨.RBRACKET, "]", s.line, s.column⟩]
            else if char = braceL then acc ++ [⟨.LBRACE, String.mk [braceL], s.line, s.column⟩]
            else if char = braceR then acc ++ [⟨.RBRACE, String.mk [braceR], s.line, s.column⟩]
            else if char = ',' then acc ++ [⟨.COMMA, ",", s.line, s.column⟩]
            else if char = ':' then acc ++ [⟨.COLON, ":", s.line, s.column⟩]
            else if char = '.' then acc ++ [⟨.DOT, ".", s.line, s.column⟩]
            else acc
          tokenizeLoop fuel (advance s) acc1 false

/-- Initial lexer state for a source text. -/
def initLexState (text : String) : LexState := ⟨text.data, 0, 1, 1, [0]⟩

/-- Lexer(text).tokenize(), with fuel for the main loop. -/
def tokenize (fuel : Nat) (text : String) : Option (List Token) :=
  tokenizeLoop fuel (initLexState text) [] true

/-- Values carried by Literal nodes. Python classifies a NUMBER lexeme as
float when it contains a dot, int otherwise; the float value is kept here
as its lexeme (its Python repr is never exercised by the program parts
modeled below, every generated number being an int). -/
inductive PyVal where
  | int (n : Int)
  | float (lexeme : String)
  | str (s : String)
  | bool (b : Bool)
  | noneV
  deriving DecidableEq, Repr

/-- Expression nodes of ast_nodes.py. -/
inductive Expr where
  | binaryOp (left : Expr) (operator : String) (right : Expr)
  | unaryOp (operator : String) (operand : Expr)
  | functionCall (name : String) (args : List Expr)
  | methodCall (object : Expr) (method : String) (args : List Expr)
  | identifier (name : String)
  | literal (value : PyVal) (ty : String)
  | listLiteral (elements : List Expr)
  | dictLiteral (pairs : List (Expr × Expr))
  | attributeAccess (object : Expr) (attrName : String)
  | indexAccess (object : Expr) (index : Expr)
  deriving Repr

/-- Statement nodes of ast_nodes.py. -/
inductive Stmt where
  | functionDef (name : String) (params : List String) (body : List Stmt)
  | classDef (name : String) (body : List Stmt)
  | ifStatement (condition : Expr) (thenBody : List Stmt)
      (elseBody : Option (List Stmt))
  | forStatement (target : String) (iterable : Expr) (body : List Stmt)
  | whileStatement (condition : Expr) (body : List Stmt)
  | returnStatement (value : Option Expr)
  | assignStatement (target : String) (value : Expr)
  | exprStatement (expression : Expr)
  deriving Repr

/-- Program root node. -/
structure Program where
  statements : List Stmt
  deriving Repr

/-- Exceptions that can escape the parser: ParseError, the ValueError
raised by float() on a malformed NUMBER lexeme, and fuel exhaustion of
the model (never a behavior of the source). -/
inductive PErr where
  | parseError (msg : String)
  | valueError (msg : String)
  | fuelOut
  deriving DecidableEq, Repr

/-- Parser state: the token list and the cursor. -/
structure PState where
  tokens : List Token
  pos : Nat
  deriving Repr

/-- Fallback token used to model indexing an empty token list (the source
would raise there; the lexer always supplies a nonempty list). -/
def defaultTok : Token := ⟨.EOF, "", 0, 0⟩

/-- Parser.current_token: tokens[pos] if in range else tokens[-1]. -/
def currentToken (p : PState) : Token :=
  if p.pos < p.tokens.length then p.tokens.getD p.pos defaultTok
  else p.tokens.getLastD defaultTok

/-- Parser.peek_token. -/
def peekToken (p : PState) (offset : Nat) : Token :=
  if p.pos + offset < p.tokens.length then p.tokens.getD (p.pos + offset) defaultTok
  else p.tokens.getLastD defaultTok

/-- Parser.advance: the cursor never moves past the last token. -/
def padvance (p : PState) : PState :=
  if p.pos < p.tokens.length - 1 then { p with pos := p.pos + 1 } else p

/-- Parser.match. -/
def matchT (p : PState) (tt : TokenType) : Bool :=
  (currentToken p).type = tt

/-- Parser.consume. -/
def consume (p : PState) (tt : TokenType) : Except PErr (Token × PState) :=
  if ¬ matchT p tt then
    .error (.parseError ("Expected " ++ tokenTypeStr tt ++ ", got " ++
      tokenTypeStr (currentToken p).type))
  else
    .ok (currentToken p, padvance p)

/-- Python int() on an all-digit lexeme. -/
def strToInt (v : String) : Int :=
  Int.ofNat (v.data.foldl (fun n c => n * 10 + (c.toNat - 48)) 0)

mutual

/-- Parser.skip_newlines. -/
def skipNewlines : Nat → PState → Except PErr PState
  | 0, _ => .error .fuelOut
  | f + 1, p =>
    if matchT p .NEWLINE then skipNewlines f (padvance p) else .ok p

/-- Parser.parse: the entry point returning a Program. -/
def parseTop : Nat → PState → Except PErr (Program × PState)
  | 0, _ => .error .fuelOut
  | f + 1, p => do
    let p ← skipNewlines f p
    let (sts, p) ← parseTopLoop f p []
    .ok (⟨sts⟩, p)

/-- While-loop of Parser.parse. -/
def parseTopLoop : Nat → PState → List Stmt → Except PErr (List Stmt × PState)
  | 0, _, _ => .error .fuelOut
  | f + 1, p, acc =>
    if matchT p .EOF then .ok (acc, p)
    else if matchT p .NEWLINE then parseTopLoop f (padvance p) acc
    else do
      let (stmt?, p) ← parseStatement f p
      match stmt? with
      | some st => parseTopLoop f p (acc ++ [st])
      | Option.none => parseTopLoop f p acc

/-- Parser.parse_statement. The final return-None path of the source is
unreachable (parse_expression always yields a truthy node) but kept. -/
def parseStatement : Nat → PState → Except PErr (Option Stmt × PState)
  | 0, _ => .error .fuelOut
  | f + 1, p => do
    let p ← skipNewlines f p
    if matchT p .DEF then do
      let (s, p) ← parseFunctionDef f p
      .ok (some s, p)
    else if matchT p .CLASS then do
      let (s, p) ← parseClassDef f p
      .ok (some s, p)
    else if matchT p .IF then do
      let (s, p) ← parseIfStatement f p
      .ok (some s, p)
    else if matchT p .FOR then do
      let (s, p) ← parseForStatement f p
      .ok (some s, p)
    else if matchT p .WHILE then do
      let (s, p) ← parseWhileStatement f p
      .ok (some s, p)
    else if matchT p .RETURN then do
      let (s, p) ← parseReturnStatement f p
      .ok (some s, p)
    else if matchT p .IDENTIFIER ∧ (peekToken p 1).type = .ASSIGN then do
      let (s, p) ← parseAssignment f p
      .ok (some s, p)
    else do
      let (e, p) ← parseExpression f p
      .ok (some (.exprStatement e), p)

/-- Parser.parse_function_def. -/
def parseFunctionDef : Nat → PState → Except PErr (Stmt × PState)
  | 0, _ => .error .fuelOut
  | f + 1, p => do
    let (_, p) ← consume p .DEF
    let (ntok, p) ← consume p .IDENTIFIER
    let (_, p) ← consume p .LPAREN
    let (params, p) ← parseParamsLoop f p []
    let (_, p) ← consume p .RPAREN
    let (_, p) ← consume p .COLON
    let (body, p) ← parseBlock f p
    .ok (.functionDef ntok.value params body, p)

/-- Parameter loop of Parser.parse_function_def. -/
def parseParamsLoop : Nat → PState → List String → Except PErr (List String × PState)
  | 0, _, _ => .error .fuelOut
  | f + 1, p, acc =>
    if matchT p .RPAREN then .ok (acc, p)
    else do
      let (t, p) ← consume p .IDENTIFIER
      let p := if matchT p .COMMA then padvance p else p
      parseParamsLoop f p (acc ++ [t.value])

/-- Parser.parse_class_def. -/
def parseClassDef : Nat → PState → Except PErr (Stmt × PState)
  | 0, _ => .error .fuelOut
  | f + 1, p => do
    let (_, p) ← consume p .CLASS
    let (ntok, p) ← consume p .IDENTIFIER
    let (_, p) ← consume p .COLON
    let p ← skipNewlines f p
    if ¬ matchT p .INDENT then .ok (.classDef ntok.value [], p)
    else do
      let (_, p) ← consume p .INDENT
      let (body, p) ← parseClassBodyLoop f p []
      let p := if matchT p .DEDENT then padvance p else p
      .ok (.classDef ntok.value body, p)

/-- Body loop of Parser.parse_class_def: only def statements are parsed,
any other token is consumed and dropped. -/
def parseClassBodyLoop : Nat → PState → List Stmt → Except PErr (List Stmt × PState)
  | 0, _, _ => .error .fuelOut
  | f + 1, p, acc =>
    if ¬ matchT p .DEDENT ∧ ¬ matchT p .EOF then
      if matchT p .NEWLINE then parseClassBodyLoop f (padvance p) acc
      else if matchT p .DEF then do
        let (m, p) ← parseFunctionDef f p
        parseClassBodyLoop f p (acc ++ [m])
      else parseClassBodyLoop f (padvance p) acc
    else .ok (acc, p)

/-- Parser.parse_if_statement. -/
def parseIfStatement : Nat → PState → Except PErr (Stmt × PState)
  | 0, _ => .error .fuelOut
  | f + 1, p => do
    let (_, p) ← consume p .IF
    let (cond, p) ← parseExpression f p
    let (_, p) ← consume p .COLON
    let (thenBody, p) ← parseBlock f p
    if matchT p .ELIF then do
      let (elifStmt, p) ← parseElifChain f p
      .ok (.ifStatement cond thenBody (some [elifStmt]), p)
    else if matchT p .ELSE then do
      let p := padvance p
      let (_, p) ← consume p .COLON
      let (elseBody, p) ← parseBlock f p
      .ok (.ifStatement cond thenBody (some elseBody), p)
    else .ok (.ifStatement cond thenBody Option.none, p)

/-- Parser.parse_elif_chain: an elif becomes a nested IfStatement. -/
def parseElifChain : Nat → PState → Except PErr (Stmt × PState)
  | 0, _ => .error .fuelOut
  | f + 1, p => do
    let (_, p) ← consume p .ELIF
    let (cond, p) ← parseExpression f p
    let (_, p) ← consume p .COLON
    let (thenBody, p) ← parseBlock f p
    if matchT p .ELIF then do
      let (elifStmt, p) ← parseElifChain f p
      .ok (.ifStatement cond thenBody (some [elifStmt]), p)
    else if matchT p .ELSE then do
      let p := padvance p
      let (_, p) ← consume p .COLON
      let (elseBody, p) ← parseBlock f p
      .ok (.ifStatement cond thenBody (some elseBody), p)
    else .ok (.ifStatement cond thenBody Option.none, p)

/-- Parser.parse_for_statement. -/
def parseForStatement : Nat → PState → Except PErr (Stmt × PState)
  | 0, _ => .error .fuelOut
  | f + 1, p => do
    let (_, p) ← consume p .FOR
    let (ttok, p) ← consume p .IDENTIFIER
    let (_, p) ← consume p .IN
    let (iterable, p) ← parseExpression f p
    let (_, p) ← consume p .COLON
    let (body, p) ← parseBlock f p
    .ok (.forStatement ttok.value iterable body, p)

/-- Parser.parse_while_statement. -/
def parseWhileStatement : Nat → PState → Except PErr (Stmt × PState)
  | 0, _ => .error .fuelOut
  | f + 1, p => do
    let (_, p) ← consume p .WHILE
    let (cond, p) ← parseExpression f p
    let (_, p) ← consume p .COLON
    let (body, p) ← parseBlock f p
    .ok (.whileStatement cond body, p)

/-- Parser.parse_return_statement. -/
def parseReturnStatement : Nat → PState → Except PErr (Stmt × PState)
  | 0, _ => .error .fuelOut
  | f + 1, p => do
    let (_, p) ← consume p .RETURN
    if ¬ matchT p .NEWLINE ∧ ¬ matchT p .EOF then do
      let (v, p) ← parseExpression f p
      .ok (.returnStatement (some v), p)
    else .ok (.returnStatement Option.none, p)

/-- Parser.parse_assignment. -/
def parseAssignment : Nat → PState → Except PErr (Stmt × PState)
  | 0, _ => .error .fuelOut
  | f + 1, p => do
    let (ttok, p) ← consume p .IDENTIFIER
    let (_, p) ← consume p .ASSIGN
    let (v, p) ← parseExpression f p
    .ok (.assignStatement ttok.value v, p)

/-- Parser.parse_block. -/
def parseBlock : Nat → PState → Except PErr (List Stmt × PState)
  | 0, _ => .error .fuelOut
  | f + 1, p => do
    let p ← skipNewlines f p
    if ¬ matchT p .INDENT then do
      let (st?, p) ← parseStatement f p
      match st? with
      | some st => .ok ([st], p)
      | Option.none => .ok ([], p)
    else do
      let (_, p) ← consume p .INDENT
      let (sts, p) ← parseBlockLoop f p []
      let p := if matchT p .DEDENT then padvance p else p
      .ok (sts, p)

/-- Statement loop of Parser.parse_block. -/
def parseBlockLoop : Nat → PState → List Stmt → Except PErr (List Stmt × PState)
  | 0, _, _ => .error .fuelOut
  | f + 1, p, acc =>
    if ¬ matchT p .DEDENT ∧ ¬ matchT p .EOF then
      if matchT p .NEWLINE then parseBlockLoop f (padvance p) acc
      else do
        let (st?, p) ← parseStatement f p
        match st? with
        | some st => parseBlockLoop f p (acc ++ [st])
        | Option.none => parseBlockLoop f p acc
    else .ok (acc, p)

/-- Parser.parse_expression. -/
def parseExpression : Nat → PState → Except PErr (Expr × PState)
  | 0, _ => .error .fuelOut
  | f + 1, p => parseOrExpr f p

/-- Parser.parse_or_expression. -/
def parseOrExpr : Nat → PState → Except PErr (Expr × PState)
  | 0, _ => .error .fuelOut
  | f + 1, p => do
    let (l, p) ← parseAndExpr f p
    parseOrLoop f p l

/-- While-loop of Parser.parse_or_expression. -/
def parseOrLoop : Nat → PState → Expr → Except PErr (Expr × PState)
  | 0, _, _ => .error .fuelOut
  | f + 1, p, left =>
    if matchT p .OR then do
      let op := (currentToken p).value
      let p := padvance p
      let (r, p) ← parseAndExpr f p
      parseOrLoop f p (.binaryOp left op r)
    else .ok (left, p)

/-- Parser.parse_and_expression. -/
def parseAndExpr : Nat → PState → Except PErr (Expr × PState)
  | 0, _ => .error .fuelOut
  | f + 1, p => do
    let (l, p) ← parseEqualityExpr f p
    parseAndLoop f p l

/-- While-loop of Parser.parse_and_expression. -/
def parseAndLoop : Nat → PState → Expr → Except PErr (Expr × PState)
  | 0, _, _ => .error .fuelOut
  | f + 1, p, left =>
    if matchT p .AND then do
      let op := (currentToken p).value
      let p := padvance p
      let (r, p) ← parseEqualityExpr f p
      parseAndLoop f p (.binaryOp left op r)
    else .ok (left, p)

/-- Parser.parse_equality_expression. -/
def parseEqualityExpr : Nat → PState → Except PErr (Expr × PState)
  | 0, _ => .error .fuelOut
  | f + 1, p => do
    let (l, p) ← parseComparisonExpr f p
    parseEqualityLoop f p l

/-- While-loop of Parser.parse_equality_expression. -/
def parseEqualityLoop : Nat → PState → Expr → Except PErr (Expr × PState)
  | 0, _, _ => .error .fuelOut
  | f + 1, p, left =>
    if matchT p .EQ ∨ matchT p .NE then do
      let op := (currentToken p).value
      let p := padvance p
      let (r, p) ← parseComparisonExpr f p
      parseEqualityLoop f p (.binaryOp left op r)
    else .ok (left, p)

/-- Parser.parse_comparison_expression. -/
def parseComparisonExpr : Nat → PState → Except PErr (Expr × PState)
  | 0, _ => .error .fuelOut
  | f + 1, p => do
    let (l, p) ← parseAdditiveExpr f p
    parseComparisonLoop f p l

/-- While-loop of Parser.parse_comparison_expression. -/
def parseComparisonLoop : Nat → PState → Expr → Except PErr (Expr × PState)
  | 0, _, _ => .error .fuelOut
  | f + 1, p, left =>
    if matchT p .LT ∨ matchT p .LE ∨ matchT p .GT ∨ matchT p .GE then do
      let op := (currentToken p).value
      let p := padvance p
      let (r, p) ← parseAdditiveExpr f p
      parseComparisonLoop f p (.binaryOp left op r)
    else .ok (left, p)

/-- Parser.parse_additive_expression. -/
def parseAdditiveExpr : Nat → PState → Except PErr (Expr × PState)
  | 0, _ => .error .fuelOut
  | f + 1, p => do
    let (l, p) ← parseMultiplicativeExpr f p
    parseAdditiveLoop f p l

/-- While-loop of Parser.parse_additive_expression. -/
def parseAdditiveLoop : Nat → PState → Expr → Except PErr (Expr × PState)
  | 0, _, _ => .error .fuelOut
  | f + 1, p, left =>
    if matchT p .PLUS ∨ matchT p .MINUS then do
      let op := (currentToken p).value
      let p := padvance p
      let (r, p) ← parseMultiplicativeExpr f p
      parseAdditiveLoop f p (.binaryOp left op r)
    else .ok (left, p)

/-- Parser.parse_multiplicative_expression. -/
def parseMultiplicativeExpr : Nat → PState → Except PErr (Expr × PState)
  | 0, _ => .error .fuelOut
  | f + 1, p => do
    let (l, p) ← parsePowerExpr f p
    parseMultiplicativeLoop f p l

/-- While-loop of Parser.parse_multiplicative_expression. -/
def parseMultiplicativeLoop : Nat → PState → Expr → Except PErr (Expr × PState)
  | 0, _, _ => .error .fuelOut
  | f + 1, p, left =>
    if matchT p .MULTIPLY ∨ matchT p .DIVIDE ∨ matchT p .MODULO then do
      let op := (currentToken p).value
      let p := padvance p
      let (r, p) ← parsePowerExpr f p
      parseMultiplicativeLoop f p (.binaryOp left op r)
    else .ok (left, p)

/-- Parser.parse_power_expression: right associative by recursion. -/
def parsePowerExpr : Nat → PState → Except PErr (Expr × PState)
  | 0, _ => .error .fuelOut
  | f + 1, p => do
    let (l, p) ← parseUnaryExpr f p
    if matchT p .POWER then do
      let op := (currentToken p).value
      let p := padvance p
      let (r, p) ← parsePowerExpr f p
      .ok (.binaryOp l op r, p)
    else .ok (l, p)

/-- Parser.parse_unary_expression. -/
def parseUnaryExpr : Nat → PState → Except PErr (Expr × PState)
  | 0, _ => .error .fuelOut
  | f + 1, p =>
    if matchT p .NOT ∨ matchT p .MINUS then do
      let op := (currentToken p).value
      let p := padvance p
      let (operand, p) ← parseUnaryExpr f p
      .ok (.unaryOp op operand, p)
    else parsePostfixExpr f p

/-- Parser.parse_postfix_expression. -/
def parsePostfixExpr : Nat → PState → Except PErr (Expr × PState)
  | 0, _ => .error .fuelOut
  | f + 1, p => do
    let (e, p) ← parsePrimaryExpr f p
    parsePostfixLoop f p e

/-- While-loop of Parser.parse_postfix_expression: call, attribute and
index chaining. -/
def parsePostfixLoop : Nat → PState → Expr → Except PErr (Expr × PState)
  | 0, _, _ => .error .fuelOut
  | f + 1, p, e =>
    if matchT p .LPAREN then do
      let p := padvance p
      let (args, p) ← parseCallArgsLoop f p []
      let (_, p) ← consume p .RPAREN
      match e with
      | .identifier nm => parsePostfixLoop f p (.functionCall nm args)
      | .attributeAccess obj attr => parsePostfixLoop f p (.methodCall obj attr args)
      | _ => .error (.parseError "Invalid function call")
    else if matchT p .DOT then do
      let p := padvance p
      let (t, p) ← consume p .IDENTIFIER
      parsePostfixLoop f p (.attributeAccess e t.value)
    else if matchT p .LBRACKET then do
      let p := padvance p
      let (idx, p) ← parseExpression f p
      let (_, p) ← consume p .RBRACKET
      parsePostfixLoop f p (.indexAccess e idx)
    else .ok (e, p)

/-- Argument loop of the call case in Parser.parse_postfix_expression. -/
def parseCallArgsLoop : Nat → PState → List Expr → Except PErr (List Expr × PState)
  | 0, _, _ => .error .fuelOut
  | f + 1, p, acc =>
    if matchT p .RPAREN then .ok (acc, p)
    else do
      let (a, p) ← parseExpression f p
      let p := if matchT p .COMMA then padvance p else p
      parseCallArgsLoop f p (acc ++ [a])

/-- Parser.parse_primary_expression. A NUMBER lexeme goes through
float() when it contains a dot: over the lexer's digit-and-dot lexemes,
float() raises ValueError exactly when the lexeme holds more than one
dot, and int() always succeeds on the dot-free all-digit lexemes. -/
def parsePrimaryExpr : Nat → PState → Except PErr (Expr × PState)
  | 0, _ => .error .fuelOut
  | f + 1, p =>
    if matchT p .NUMBER then
      let v := (currentToken p).value
      let p := padvance p
      if v.data.contains '.' then
        if 2 ≤ v.data.count '.' then
          .error (.valueError ("could not convert string to float: " ++ sq ++ v ++ sq))
        else .ok (.literal (.float v) "number", p)
      else .ok (.literal (.int (strToInt v)) "number", p)
    else if matchT p .STRING then
      let v := (currentToken p).value
      let p := padvance p
      .ok (.literal (.str v) "string", p)
    else if matchT p .TRUE then
      .ok (.literal (.bool true) "boolean", padvance p)
    else if matchT p .FALSE then
      .ok (.literal (.bool false) "boolean", padvance p)
    else if matchT p .NONE then
      .ok (.literal .noneV "none", padvance p)
    else if matchT p .IDENTIFIER then
      let v := (currentToken p).value
      .ok (.identifier v, padvance p)
    else if matchT p .LBRACKET then
      parseListLiteralE f p
    else if matchT p .LBRACE then
      parseDictLiteralE f p
    else if matchT p .LPAREN then do
      let p := padvance p
      let (e, p) ← parseExpression f p
      let (_, p) ← consume p .RPAREN
      .ok (e, p)
    else
      .error (.parseError ("Unexpected token: " ++ tokenTypeStr (currentToken p).type))

/-- Parser.parse_list_literal. -/
def parseListLiteralE : Nat → PState → Except PErr (Expr × PState)
  | 0, _ => .error .fuelOut
  | f + 1, p => do
    let (_, p) ← consume p .LBRACKET
    let (elems, p) ← parseListLoop f p []
    let (_, p) ← consume p .RBRACKET
    .ok (.listLiteral elems, p)

/-- Element loop of Parser.parse_list_literal. -/
def parseListLoop : Nat → PState → List Expr → Except PErr (List Expr × PState)
  | 0, _, _ => .error .fuelOut
  | f + 1, p, acc =>
    if matchT p .RBRACKET then .ok (acc, p)
    else do
      let (e, p) ← parseExpression f p
      let p := if matchT p .COMMA then padvance p else p
      parseListLoop f p (acc ++ [e])

/-- Parser.parse_dict_literal. -/
def parseDictLiteralE : Nat → PState → Except PErr (Expr × PState)
  | 0, _ => .error .fuelOut
  | f + 1, p => do
    let (_, p) ← consume p .LBRACE
    let (pairs, p) ← parseDictLoop f p []
    let (_, p) ← consume p .RBRACE
    .ok (.dictLiteral pairs, p)

/-- Pair loop of Parser.parse_dict_literal. -/
def parseDictLoop : Nat → PState → List (Expr × Expr) →
    Except PErr (List (Expr × Expr) × PState)
  | 0, _, _ => .error .fuelOut
  | f + 1, p, acc =>
    if matchT p .RBRACE then .ok (acc, p)
    else do
      let (k, p) ← parseExpression f p
      let (_, p) ← consume p .COLON
      let (v, p) ← parseExpression f p
      let p := if matchT p .COMMA then padvance p else p
      parseDictLoop f p (acc ++ [(k, v)])

end

/-- Lex then parse a source text, keeping only the resulting tree. -/
def parseSource (fuel : Nat) (src : String) : Option (Except PErr Program) :=
  (tokenize fuel src).map (fun toks => (parseTop fuel ⟨toks, 0⟩).map Prod.fst)

/-- Symbol of semantic_analyzer.py. -/
structure Symbol where
  name : String
  type : String
  scope : String
  deriving DecidableEq, Repr

/-- Scope maps are Python dicts; modeled as association lists where an
assignment to an existing key replaces in place. -/
def dictSet (k : String) (v : Symbol) : List (String × Symbol) → List (String × Symbol)
  | [] => [(k, v)]
  | (k0, v0) :: rest =>
    if k0 = k then (k, v) :: rest else (k0, v0) :: dictSet k v rest

/-- Key lookup in a scope map. -/
def dictFind (k : String) : List (String × Symbol) → Option Symbol
  | [] => Option.none
  | (k0, v0) :: rest => if k0 = k then some v0 else dictFind k rest

/-- SymbolTable of semantic_analyzer.py: a stack of scope maps with the
index of the current scope. -/
structure SymbolTable where
  scopes : List (List (String × Symbol))
  currentScope : Nat
  deriving DecidableEq, Repr

/-- SymbolTable.enter_scope. -/
def enterScope (t : SymbolTable) : SymbolTable :=
  { scopes := t.scopes ++ [[]], currentScope := t.currentScope + 1 }

/-- SymbolTable.exit_scope. -/
def exitScope (t : SymbolTable) : SymbolTable :=
  if t.currentScope > 0 then
    { scopes := t.scopes.dropLast, currentScope := t.currentScope - 1 }
  else t

/-- SymbolTable.declare. -/
def declare (t : SymbolTable) (name ty : String) : SymbolTable :=
  let scopeName := "scope_" ++ toString t.currentScope
  let sym : Symbol := ⟨name, ty, scopeName⟩
  { t with scopes :=
      t.scopes.set t.currentScope (dictSet name sym (t.scopes.getD t.currentScope [])) }

/-- Descending loop of SymbolTable.lookup, from scope index i down to 0. -/
def lookupAux (scopes : List (List (String × Symbol))) (name : String) :
    Nat → Option Symbol
  | 0 => dictFind name (scopes.getD 0 [])
  | i + 1 =>
    match dictFind name (scopes.getD (i + 1) []) with
    | some s => some s
    | Option.none => lookupAux scopes name i

/-- SymbolTable.lookup. -/
def lookup (t : SymbolTable) (name : String) : Option Symbol :=
  lookupAux t.scopes name t.currentScope

/-- SymbolTable.is_declared_in_current_scope. -/
def isDeclaredInCurrentScope (t : SymbolTable) (name : String) : Bool :=
  (dictFind name (t.scopes.getD t.currentScope [])).isSome

/-- Mutable state of the SemanticAnalyzer instance. -/
structure AnalyzerState where
  symbolTable : SymbolTable
  errors : List String
  currentFunction : Option String
  deriving DecidableEq, Repr

/-- SemanticAnalyzer.error. -/
def addError (st : AnalyzerState) (message : String) : AnalyzerState :=
  { st with errors := st.errors ++ [message] }

/-- The builtin_functions set of semantic_analyzer.py, in its literal
order; the declarations are order-insensitive since every name is
declared with the same kind into one dict. -/
def builtinFunctions : List String :=
  ["print", "len", "range", "str", "int", "float", "bool", "list", "dict"]

/-- Python truthiness of an if-condition on an else_body field: both a
missing body and an empty list are falsy. -/
def elseBodyTruthy : Option (List Stmt) → Bool
  | Option.none => false
  | some l => ¬ l.isEmpty

/-- Parameter loop of SemanticAnalyzer.visit_function_def. -/
def declareParams : List String → AnalyzerState → AnalyzerState
  | [], st => st
  | pname :: rest, st =>
    let st :=
      if isDeclaredInCurrentScope st.symbolTable pname then
        addError st ("Parameter " ++ sq ++ pname ++ sq ++ " already declared")
      else st
    let st := { st with symbolTable := declare st.symbolTable pname "variable" }
    declareParams rest st

mutual

/-- SemanticAnalyzer.visit_statement dispatch with each visit method. -/
def aVisitStatement : Stmt → AnalyzerState → AnalyzerState
  | .functionDef name params body, st =>
    let st :=
      if isDeclaredInCurrentScope st.symbolTable name then
        addError st ("Function " ++ sq ++ name ++ sq ++ " already declared in current scope")
      else st
    let st := { st with symbolTable := declare st.symbolTable name "function" }
    let st := { st with symbolTable := enterScope st.symbolTable }
    let oldFunction := st.currentFunction
    let st := { st with currentFunction := some name }
    let st := declareParams params st
    let st := aVisitStmtList body st
    let st := { st with currentFunction := oldFunction }
    { st with symbolTable := exitScope st.symbolTable }
  | .classDef name body, st =>
    let st :=
      if isDeclaredInCurrentScope st.symbolTable name then
        addError st ("Class " ++ sq ++ name ++ sq ++ " already declared in current scope")
      else st
    let st := { st with symbolTable := declare st.symbolTable name "class" }
    let st := { st with symbolTable := enterScope st.symbolTable }
    let st := aVisitStmtList body st
    { st with symbolTable := exitScope st.symbolTable }
  | .ifStatement cond thenBody elseBody, st =>
    let st := aVisitExpression cond st
    let st := aVisitStmtList thenBody st
    match elseBody with
    | some l => if ¬ l.isEmpty then aVisitStmtList l st else st
    | Option.none => st
  | .forStatement target iterable body, st =>
    let st := aVisitExpression iterable st
    let st := { st with symbolTable := enterScope st.symbolTable }
    let st := { st with symbolTable := declare st.symbolTable target "variable" }
    let st := aVisitStmtList body st
    { st with symbolTable := exitScope st.symbolTable }
  | .whileStatement cond body, st =>
    let st := aVisitExpression cond st
    aVisitStmtList body st
  | .returnStatement value, st =>
    let st :=
      match st.currentFunction with
      | Option.none => addError st "Return statement outside function"
      | some _ => st
    match value with
    | some v => aVisitExpression v st
    | Option.none => st
  | .assignStatement target value, st =>
    let st := aVisitExpression value st
    match lookup st.symbolTable target with
    | some _ => st
    | Option.none => { st with symbolTable := declare st.symbolTable target "variable" }
  | .exprStatement e, st => aVisitExpression e st

/-- Statement list walk (the for-loops over bodies). -/
def aVisitStmtList : List Stmt → AnalyzerState → AnalyzerState
  | [], st => st
  | s :: rest, st => aVisitStmtList rest (aVisitStatement s st)

/-- SemanticAnalyzer.visit_expression dispatch with each visit method.
The binary-op arm mirrors visit_binary_op, whose type-checking branches
are all no-ops in the source. -/
def aVisitExpression : Expr → AnalyzerState → AnalyzerState
  | .binaryOp l _ r, st => aVisitExpression r (aVisitExpression l st)
  | .unaryOp _ operand, st => aVisitExpression operand st
  | .functionCall name args, st =>
    let st :=
      match lookup st.symbolTable name with
      | Option.none => addError st ("Undefined function " ++ sq ++ name ++ sq)
      | some sym =>
        if sym.type ≠ "function" ∧ sym.type ≠ "class" then
          addError st (sq ++ name ++ sq ++ " is not a function or class")
        else st
    aVisitExprList args st
  | .methodCall obj _ args, st =>
    let st := aVisitExpression obj st
    aVisitExprList args st
  | .identifier name, st =>
    match lookup st.symbolTable name with
    | Option.none => addError st ("Undefined variable " ++ sq ++ name ++ sq)
    | some _ => st
  | .literal _ _, st => st
  | .listLiteral elements, st => aVisitExprList elements st
  | .dictLiteral pairs, st => aVisitPairList pairs st
  | .attributeAccess obj _, st => aVisitExpression obj st
  | .indexAccess obj idx, st => aVisitExpression idx (aVisitExpression obj st)

/-- Expression list walk (argument and element loops). -/
def aVisitExprList : List Expr → AnalyzerState → AnalyzerState
  | [], st => st
  | e :: rest, st => aVisitExprList rest (aVisitExpression e st)

/-- Pair walk of SemanticAnalyzer.visit_dict_literal: key then value. -/
def aVisitPairList : List (Expr × Expr) → AnalyzerState → AnalyzerState
  | [], st => st
  | (k, v) :: rest, st =>
    aVisitPairList rest (aVisitExpression v (aVisitExpression k st))

end

/-- Builtin-declaration loop at the head of SemanticAnalyzer.analyze. -/
def declareBuiltins : List String → SymbolTable → SymbolTable
  | [], t => t
  | f :: rest, t => declareBuiltins rest (declare t f "function")

/-- SemanticAnalyzer.analyze: resets the error list (and only it),
declares the builtins into the existing table and walks the tree. -/
def analyze (ast : Program) (st : AnalyzerState) : List String × AnalyzerState :=
  let st := { st with errors := [] }
  let st := { st with symbolTable := declareBuiltins builtinFunctions st.symbolTable }
  let st := aVisitStmtList ast.statements st
  (st.errors, st)

/-- Mutable state of the CodeGenerator instance. -/
structure GenState where
  indentLevel : Int
  output : List String
  deriving DecidableEq, Repr

/-- Python str.join. -/
def joinSep (sep : String) : List String → String
  | [] => ""
  | [x] => x
  | x :: rest => x ++ sep ++ joinSep sep rest

/-- CodeGenerator.indent: two spaces per level, empty for non-positive
levels as Python string repetition gives. -/
def indentStr (st : GenState) : String :=
  joinSep "" (List.replicate st.indentLevel.toNat "  ")

/-- CodeGenerator.emit. -/
def emit (st : GenState) (code : String) : GenState :=
  { st with output := st.output ++ [indentStr st ++ code] }

/-- Operator table of CodeGenerator.visit_binary_op with its default. -/
def opMapBin (op : String) : String :=
  if op = "and" then "&&"
  else if op = "or" then "||"
  else if op = "**" then "**"
  else if op = "//" then "Math.floor"
  else op

/-- CodeGenerator.visit_binary_op on already-lowered operand strings. -/
def gVisitBinary (left op right : String) : String :=
  if op = "//" then "Math.floor(" ++ left ++ " / " ++ right ++ ")"
  else "(" ++ left ++ " " ++ opMapBin op ++ " " ++ right ++ ")"

/-- Operator table of CodeGenerator.visit_unary_op with its default. -/
def opMapUn (op : String) : String :=
  if op = "not" then "!"
  else if op = "-" then "-"
  else if op = "+" then "+"
  else op

/-- CodeGenerator.generate_range_function. -/
def generateRangeFunction (args : List String) : String :=
  match args with
  | [a] => "Array.from(\x7blength: " ++ a ++ "\x7d, (_, i) => i)"
  | [a, b] => "Array.from(\x7blength: " ++ b ++ " - " ++ a ++ "\x7d, (_, i) => i + " ++ a ++ ")"
  | [a, b, step] =>
      "Array.from(\x7blength: Math.ceil((" ++ b ++ " - " ++ a ++ ") / " ++ step ++
      ")\x7d, (_, i) => " ++ a ++ " + i * " ++ step ++ ")"
  | _ => "[]"

/-- CodeGenerator.visit_function_call on already-lowered argument
strings: the builtin lowering table, then the uppercase-constructor rule.
The empty-name fallback is unreachable, the parser producing call names
from nonempty identifier lexemes only. -/
def gVisitFunctionCall (name : String) (args : List String) : String :=
  let argsStr := joinSep ", " args
  if name = "print" then "console.log(" ++ argsStr ++ ")"
  else if name = "len" then
    match args with
    | [] => "0"
    | a :: _ => a ++ ".length"
  else if name = "str" then "String(" ++ argsStr ++ ")"
  else if name = "int" then "parseInt(" ++ argsStr ++ ")"
  else if name = "float" then "parseFloat(" ++ argsStr ++ ")"
  else if name = "bool" then "Boolean(" ++ argsStr ++ ")"
  else if name = "list" then
    match args with
    | [] => "[]"
    | _ => "[" ++ argsStr ++ "]"
  else if name = "dict" then
    match args with
    | [] => "\x7b\x7d"
    | a :: _ => "\x7b" ++ a ++ "\x7d"
  else if name = "range" then generateRangeFunction args
  else
    match name.data with
    | [] => name ++ "(" ++ argsStr ++ ")"
    | c :: _ =>
      if c.isUpper then "new " ++ name ++ "(" ++ argsStr ++ ")"
      else name ++ "(" ++ argsStr ++ ")"

/-- Python str() of a literal value, as used by visit_literal. A float
value prints as its lexeme here; the abstraction is inexact for lexemes
Python would normalize but no theorem below touches a float. -/
def pyValStr : PyVal → String
  | .int n => toString n
  | .float lexeme => lexeme
  | .str s => s
  | .bool b => if b then "True" else "False"
  | .noneV => "None"

/-- Python truthiness of a literal value (the boolean branch of
visit_literal tests the value for truth). -/
def pyTruthy : PyVal → Bool
  | .int n => n ≠ 0
  | .float lexeme => lexeme ≠ "0.0"
  | .str s => ¬ s.isEmpty
  | .bool b => b
  | .noneV => false

/-- CodeGenerator.visit_literal: dispatch on the literal kind tag. -/
def gVisitLiteral (v : PyVal) (ty : String) : String :=
  if ty = "string" then "\x22" ++ pyValStr v ++ "\x22"
  else if ty = "number" then pyValStr v
  else if ty = "boolean" then (if pyTruthy v then "true" else "false")
  else if ty = "none" then "null"
  else pyValStr v

mutual

/-- CodeGenerator.visit_expression dispatch; the source's final
undefined-fallback arm is unreachable over this closed node type. -/
def gVisitExpression : Expr → String
  | .binaryOp l op r => gVisitBinary (gVisitExpression l) op (gVisitExpression r)
  | .unaryOp op operand => opMapUn op ++ gVisitExpression operand
  | .functionCall name args => gVisitFunctionCall name (gVisitArgs args)
  | .methodCall obj m args =>
      gVisitExpression obj ++ "." ++ m ++ "(" ++ joinSep ", " (gVisitArgs args) ++ ")"
  | .identifier n => n
  | .literal v ty => gVisitLiteral v ty
  | .listLiteral elements => "[" ++ joinSep ", " (gVisitArgs elements) ++ "]"
  | .dictLiteral pairs => "\x7b" ++ joinSep ", " (gVisitPairs pairs) ++ "\x7d"
  | .attributeAccess obj attr => gVisitExpression obj ++ "." ++ attr
  | .indexAccess obj idx =>
      gVisitExpression obj ++ "[" ++ gVisitExpression idx ++ "]"

/-- Argument and element lowering loops. -/
def gVisitArgs : List Expr → List String
  | [] => []
  | e :: rest => gVisitExpression e :: gVisitArgs rest

/-- Pair lowering loop of CodeGenerator.visit_dict_literal. -/
def gVisitPairs : List (Expr × Expr) → List String
  | [] => []
  | (k, v) :: rest =>
      (gVisitExpression k ++ ": " ++ gVisitExpression v) :: gVisitPairs rest

end

mutual

/-- CodeGenerator.visit_statement dispatch with each statement visitor. -/
def gVisitStatement : Stmt → GenState → GenState
  | .functionDef name params body, st =>
    let st := emit st ("function " ++ name ++ "(" ++ joinSep ", " params ++ ") \x7b")
    let st := { st with indentLevel := st.indentLevel + 1 }
    let st := gVisitStmtList body st
    let st := { st with indentLevel := st.indentLevel - 1 }
    emit st "\x7d"
  | .classDef name body, st =>
    let st := emit st ("class " ++ name ++ " \x7b")
    let st := { st with indentLevel := st.indentLevel + 1 }
    let st := gVisitClassBody body st
    let st := { st with indentLevel := st.indentLevel - 1 }
    emit st "\x7d"
  | .ifStatement cond thenBody elseBody, st =>
    let st := emit st ("if (" ++ gVisitExpression cond ++ ") \x7b")
    let st := { st with indentLevel := st.indentLevel + 1 }
    let st := gVisitStmtList thenBody st
    let st := { st with indentLevel := st.indentLevel - 1 }
    let st :=
      match elseBody with
      | some l =>
        if ¬ l.isEmpty then
          let st := emit st "\x7d else \x7b"
          let st := { st with indentLevel := st.indentLevel + 1 }
          let st := gVisitStmtList l st
          { st with indentLevel := st.indentLevel - 1 }
        else st
      | Option.none => st
    emit st "\x7d"
  | .forStatement target iterable body, st =>
    let st := emit st ("for (const " ++ target ++ " of " ++ gVisitExpression iterable ++ ") \x7b")
    let st := { st with indentLevel := st.indentLevel + 1 }
    let st := gVisitStmtList body st
    let st := { st with indentLevel := st.indentLevel - 1 }
    emit st "\x7d"
  | .whileStatement cond body, st =>
    let st := emit st ("while (" ++ gVisitExpression cond ++ ") \x7b")
    let st := { st with indentLevel := st.indentLevel + 1 }
    let st := gVisitStmtList body st
    let st := { st with indentLevel := st.indentLevel - 1 }
    emit st "\x7d"
  | .returnStatement value, st =>
    match value with
    | some v => emit st ("return " ++ gVisitExpression v ++ ";")
    | Option.none => emit st "return;"
  | .assignStatement target value, st =>
    emit st ("let " ++ target ++ " = " ++ gVisitExpression value ++ ";")
  | .exprStatement e, st => emit st (gVisitExpression e ++ ";")

/-- Statement list walk of the block visitors. -/
def gVisitStmtList : List Stmt → GenState → GenState
  | [], st => st
  | s :: rest, st => gVisitStmtList rest (gVisitStatement s st)

/-- Body loop of CodeGenerator.visit_class_def: a child FunctionDef is
emitted as a method header without the function keyword. -/
def gVisitClassBody : List Stmt → GenState → GenState
  | [], st => st
  | s :: rest, st =>
    let st :=
      match s with
      | .functionDef mname mparams mbody =>
        let st := emit st (mname ++ "(" ++ joinSep ", " mparams ++ ") \x7b")
        let st := { st with indentLevel := st.indentLevel + 1 }
        let st := gVisitStmtList mbody st
        let st := { st with indentLevel := st.indentLevel - 1 }
        emit st "\x7d"
      | other => gVisitStatement other st
    gVisitClassBody rest st

end

/-- CodeGenerator.visit_program: each statement, a blank line after a
FunctionDef. -/
def gVisitProgram : List Stmt → GenState → GenState
  | [], st => st
  | s :: rest, st =>
    let st := gVisitStatement s st
    let st :=
      match s with
      | .functionDef _ _ _ => emit st ""
      | _ => st
    gVisitProgram rest st

/-- CodeGenerator.generate: resets the output buffer (and only it),
walks the program and joins the lines. -/
def generate (ast : Program) (st : GenState) : String × GenState :=
  let st := { st with output := [] }
  let st := gVisitProgram ast.statements st
  (joinSep "\n" st.output, st)

/-- Per-instance state of PythonToJSCompiler: the analyzer and generator
are created once in the constructor and reused by every compile call. -/
structure CompilerState where
  analyzer : AnalyzerState
  generator : GenState
  deriving DecidableEq, Repr

/-- SemanticAnalyzer.__init__. -/
def freshAnalyzer : AnalyzerState := ⟨⟨[[]], 0⟩, [], Option.none⟩

/-- PythonToJSCompiler.__init__. -/
def freshCompiler : CompilerState := ⟨freshAnalyzer, ⟨0, []⟩⟩

/-- PythonToJSCompiler.compile. A ParseError is wrapped with the
syntax-error prefix; every other exception raised inside the try block,
including the CompilerError carrying the semantic diagnostics, is caught
by the generic handler and wrapped with the compilation-error prefix.
The result is none only when the model's fuel runs out. -/
def compileRun (fuel : Nat) (st : CompilerState) (src : String) :
    Option (Except String String × CompilerState) :=
  match tokenize fuel src with
  | Option.none => Option.none
  | some tokens =>
    match parseTop fuel ⟨tokens, 0⟩ with
    | .error .fuelOut => Option.none
    | .error (.parseError m) => some (.error ("Error de sintaxis: " ++ m), st)
    | .error (.valueError m) => some (.error ("Error de compilación: " ++ m), st)
    | .ok (ast, _) =>
      let (errors, anaSt) := analyze ast st.analyzer
      let st := { st with analyzer := anaSt }
      if ¬ errors.isEmpty then
        some (.error ("Error de compilación: " ++
          ("Errores semánticos encontrados:\n" ++ joinSep "\n" errors)), st)
      else
        let (js, genSt) := generate ast st.generator
        some (.ok js, { st with generator := genSt })

/-- Result of one compile call, without the carried instance state. -/
def compileOut (fuel : Nat) (st : CompilerState) (src : String) :
    Option (Except String String) :=
  (compileRun fuel st src).map Prod.fst

/-- Diagnostics that the specification says visit_function_call adds for
one call site: undefined-function when the callee name has no visible
symbol, not-a-function-or-class when the symbol kind is neither; written
from the spec wording to be compared with the analyzer code. -/
def callDiagSpec (t : SymbolTable) (name : String) : List String :=
  match lookup t name with
  | Option.none => ["Undefined function " ++ sq ++ name ++ sq]
  | some sym =>
    if sym.type ≠ "function" ∧ sym.type ≠ "class" then
      [sq ++ name ++ sq ++ " is not a function or class"]
    else []

/-- Lexer state reached on the source consisting of one exclamation
mark, where the tokenize loop stops making progress. -/
def bangState : LexState := ⟨[Char.ofNat 33], 0, 1, 1, [0]⟩

/-- Source of a single no-argument function definition. -/
def srcF : String := "def f():\n    return 1\n"

/-- Token stream of srcF. -/
def toksF : List Token :=
  [⟨.DEF, "def", 1, 1⟩, ⟨.IDENTIFIER, "f", 1, 5⟩, ⟨.LPAREN, "(", 1, 6⟩,
   ⟨.RPAREN, ")", 1, 7⟩, ⟨.COLON, ":", 1, 8⟩, ⟨.NEWLINE, "\n", 1, 9⟩,
   ⟨.INDENT, "", 2, 5⟩, ⟨.RETURN, "return", 2, 5⟩, ⟨.NUMBER, "1", 2, 12⟩,
   ⟨.NEWLINE, "\n", 2, 13⟩, ⟨.DEDENT, "", 3, 1⟩, ⟨.EOF, "", 3, 1⟩]

/-- Tree parsed from srcF. -/
def astF : Program :=
  ⟨[.functionDef "f" [] [.returnStatement (some (.literal (.int 1) "number"))]]⟩

/-- Instance state after one successful compile of srcF from a fresh
compiler: the analyzer's global scope keeps the builtins and the
function name, the generator buffer keeps the emitted lines. -/
def stateAfterF : CompilerState :=
  ⟨⟨⟨[[("print", ⟨"print", "function", "scope_0"⟩),
      ("len", ⟨"len", "function", "scope_0"⟩),
      ("range", ⟨"range", "function", "scope_0"⟩),
      ("str", ⟨"str", "function", "scope_0"⟩),
      ("int", ⟨"int", "function", "scope_0"⟩),
      ("float", ⟨"float", "function", "scope_0"⟩),
      ("bool", ⟨"bool", "function", "scope_0"⟩),
      ("list", ⟨"list", "function", "scope_0"⟩),
      ("dict", ⟨"dict", "function", "scope_0"⟩),
      ("f", ⟨"f", "function", "scope_0"⟩)]], 0⟩, [], Option.none⟩,
   ⟨0, ["function f() \x7b", "  return 1;", "\x7d", ""]⟩⟩

/-- Scenario-2 source: an if/elif/else chain inside a function. -/
def src2 : String :=
  "def s(n):\n    if n>0:\n        return 1\n    elif n<0:\n        return -1\n    else:\n        return 0\n"

/-- Token stream of src2. -/
def toks2 : List Token :=
  [⟨.DEF, "def", 1, 1⟩, ⟨.IDENTIFIER, "s", 1, 5⟩, ⟨.LPAREN, "(", 1, 6⟩,
   ⟨.IDENTIFIER, "n", 1, 7⟩, ⟨.RPAREN, ")", 1, 8⟩, ⟨.COLON, ":", 1, 9⟩,
   ⟨.NEWLINE, "\n", 1, 10⟩, ⟨.INDENT, "", 2, 5⟩, ⟨.IF, "if", 2, 5⟩,
   ⟨.IDENTIFIER, "n", 2, 8⟩, ⟨.GT, ">", 2, 9⟩, ⟨.NUMBER, "0", 2, 10⟩,
   ⟨.COLON, ":", 2, 11⟩, ⟨.NEWLINE, "\n", 2, 12⟩, ⟨.INDENT, "", 3, 9⟩,
   ⟨.RETURN, "return", 3, 9⟩, ⟨.NUMBER, "1", 3, 16⟩, ⟨.NEWLINE, "\n", 3, 17⟩,
   ⟨.DEDENT, "", 4, 5⟩, ⟨.ELIF, "elif", 4, 5⟩, ⟨.IDENTIFIER, "n", 4, 10⟩,
   ⟨.LT, "<", 4, 11⟩, ⟨.NUMBER, "0", 4, 12⟩, ⟨.COLON, ":", 4, 13⟩,
   ⟨.NEWLINE, "\n", 4, 14⟩, ⟨.INDENT, "", 5, 9⟩, ⟨.RETURN, "return", 5, 9⟩,
   ⟨.MINUS, "-", 5, 16⟩, ⟨.NUMBER, "1", 5, 17⟩, ⟨.NEWLINE, "\n", 5, 18⟩,
   ⟨.DEDENT, "", 6, 5⟩, ⟨.ELSE, "else", 6, 5⟩, ⟨.COLON, ":", 6, 9⟩,
   ⟨.NEWLINE, "\n", 6, 10⟩, ⟨.INDENT, "", 7, 9⟩, ⟨.RETURN, "return", 7, 9⟩,
   ⟨.NUMBER, "0", 7, 16⟩, ⟨.NEWLINE, "\n", 7, 17⟩, ⟨.DEDENT, "", 8, 1⟩,
   ⟨.DEDENT, "", 8, 1⟩, ⟨.EOF, "", 8, 1⟩]

/-- Tree parsed from src2: each elif is a nested IfStatement that is the
sole element of the enclosing else_body. -/
def ast2 : Program :=
  ⟨[.functionDef "s" ["n"]
    [.ifStatement (.binaryOp (.identifier "n") ">" (.literal (.int 0) "number"))
      [.returnStatement (some (.literal (.int 1) "number"))]
      (some [.ifStatement (.binaryOp (.identifier "n") "<" (.literal (.int 0) "number"))
        [.returnStatement (some (.unaryOp "-" (.literal (.int 1) "number")))]
        (some [.returnStatement (some (.literal (.int 0) "number"))])])]]⟩

/-- Scenario-3 source: a for-loop over a three-argument range call. -/
def srcR : String := "for i in range(0, 10, 2):\n    print(i)\n"

/-- Token stream of srcR. -/
def toksR : List Token :=
  [⟨.FOR, "for", 1, 1⟩, ⟨.IDENTIFIER, "i", 1, 5⟩, ⟨.IN, "in", 1, 7⟩,
   ⟨.IDENTIFIER, "range", 1, 10⟩, ⟨.LPAREN, "(", 1, 15⟩, ⟨.NUMBER, "0", 1, 16⟩,
   ⟨.COMMA, ",", 1, 17⟩, ⟨.NUMBER, "10", 1, 19⟩, ⟨.COMMA, ",", 1, 21⟩,
   ⟨.NUMBER, "2", 1, 23⟩, ⟨.RPAREN, ")", 1, 24⟩, ⟨.COLON, ":", 1, 25⟩,
   ⟨.NEWLINE, "\n", 1, 26⟩, ⟨.INDENT, "", 2, 5⟩, ⟨.IDENTIFIER, "print", 2, 5⟩,
   ⟨.LPAREN, "(", 2, 10⟩, ⟨.IDENTIFIER, "i", 2, 11⟩, ⟨.RPAREN, ")", 2, 12⟩,
   ⟨.NEWLINE, "\n", 2, 13⟩, ⟨.DEDENT, "", 3, 1⟩, ⟨.EOF, "", 3, 1⟩]

/-- Tree parsed from srcR. -/
def astR : Program :=
  ⟨[.forStatement "i"
    (.functionCall "range"
      [.literal (.int 0) "number", .literal (.int 10) "number",
       .literal (.int 2) "number"])
    [.exprStatement (.functionCall "print" [.identifier "i"])]]⟩

/-- Parser state whose current token is a NUMBER lexeme holding more
than one dot. -/
def c10state : PState := ⟨[⟨.NUMBER, "1.2.3", 1, 5⟩, ⟨.EOF, "", 1, 10⟩], 0⟩

/-- String append is associative (list append on the character data). -/
theorem strAppendAssoc (a b c : String) : a ++ b ++ c = a ++ (b ++ c) := by
  rcases a with ⟨a⟩
  rcases b with ⟨b⟩
  rcases c with ⟨c⟩
  show String.mk (a ++ b ++ c) = String.mk (a ++ (b ++ c))
  rw [List.append_assoc]

/-- From bangState, one iteration of the tokenize loop returns to
bangState with at_line_start cleared: the exclamation-mark branch whose
lookahead is not an equals sign neither advances nor emits. -/
theorem tokenizeLoop_bang_stuck :
    ∀ (fuel : Nat) (acc : List Token),
      tokenizeLoop fuel bangState acc false = Option.none := by
  intro fuel
  induction fuel with
  | zero => intro acc; rfl
  | succ n ih => intro acc; exact ih acc

/-- C3: the claim says Lexer.tokenize terminates with a single final EOF
for every source text. The code does not terminate on the source made of
one exclamation mark: the branch for an exclamation mark not followed by
an equals sign falls through without advancing, so the while loop spins
forever and no token list is ever returned; the model yields none for
every fuel bound. -/
theorem C3_tokenize_nonterminating_on_bang :
    ∀ fuel : Nat, tokenize fuel "!" = Option.none := by
  intro fuel
  cases fuel with
  | zero => rfl
  | succ n => exact tokenizeLoop_bang_stuck n []

set_option maxRecDepth 20000 in
set_option maxHeartbeats 1000000 in
/-- C1: the claim says compile run twice on one PythonToJSCompiler
instance gives equal byte-identical output both times. It does not: the
first compile of srcF succeeds and leaves the function name in the
analyzer's global scope (SemanticAnalyzer.analyze resets self.errors but
never the symbol table), so the second compile of the same source on the
carried state fails with a redeclaration diagnostic. -/
theorem C1_second_run_not_isolated :
    compileRun 300 freshCompiler srcF =
      some (.ok "function f() \x7b\n  return 1;\n\x7d\n", stateAfterF) ∧
    compileOut 300 stateAfterF srcF =
      some (.error ("Error de compilación: Errores semánticos encontrados:\n" ++
        "Function \x27f\x27 already declared in current scope")) := by
  have h1 : tokenize 300 srcF = some toksF := rfl
  have h2 : parseTop 300 ⟨toksF, 0⟩ = .ok (astF, ⟨toksF, 11⟩) := rfl
  constructor
  · simp only [compileRun, h1, h2]
    rfl
  · simp only [compileOut, compileRun, h1, h2]
    rfl

set_option maxRecDepth 20000 in
set_option maxHeartbeats 1000000 in
/-- C2: on the input calling print on an undefined name, compile fails
and the diagnostic text is built as claimed, but the CompilerError that
the driver raises inside its own try block is re-caught by the generic
except-Exception handler and re-wrapped, so the delivered message starts
with the compilation-error prefix and only contains the semantic-errors
stem after it; the undefined-variable substring is present as claimed. -/
theorem C2_semantic_failure_message_rewrapped :
    compileOut 300 freshCompiler "print(unknown)\n" =
      some (.error ("Error de compilación: " ++
        ("Errores semánticos encontrados:\n" ++ "Undefined variable \x27unknown\x27"))) :=
  rfl

set_option maxRecDepth 20000 in
set_option maxHeartbeats 1000000 in
/-- C4: the claim says compiling the floor-division assignment succeeds
and yields a Math.floor line. It does not: the lexer has no recognizer
for a double slash, so the source lexes to two consecutive DIVIDE tokens
and the parser raises ParseError at the second one; compile fails with
the syntax-error prefix and the Math.floor lowering of visit_binary_op
is never reached. -/
theorem C4_floor_division_rejected :
    compileOut 300 freshCompiler "x = 7 // 2\n" =
      some (.error "Error de sintaxis: Unexpected token: TokenType.DIVIDE") ∧
    (tokenize 300 "x = 7 // 2\n").map (List.map Token.type) =
      some [.IDENTIFIER, .ASSIGN, .NUMBER, .DIVIDE, .DIVIDE, .NUMBER, .NEWLINE, .EOF] :=
  ⟨rfl, rfl⟩

set_option maxRecDepth 20000 in
set_option maxHeartbeats 1000000 in
/-- C5: operator precedence and associativity as claimed: addition binds
looser than multiplication, the power operator is right-associative, and
a prefix not under an or parses as the left operand of the or. -/
theorem C5_operator_precedence :
    parseSource 300 "a + b * c" =
      some (.ok ⟨[.exprStatement (.binaryOp (.identifier "a") "+"
        (.binaryOp (.identifier "b") "*" (.identifier "c")))]⟩) ∧
    parseSource 300 "a ** b ** c" =
      some (.ok ⟨[.exprStatement (.binaryOp (.identifier "a") "**"
        (.binaryOp (.identifier "b") "**" (.identifier "c")))]⟩) ∧
    parseSource 300 "not a or b" =
      some (.ok ⟨[.exprStatement (.binaryOp (.unaryOp "not" (.identifier "a")) "or"
        (.identifier "b"))]⟩) :=
  ⟨rfl, rfl, rfl⟩

set_option maxRecDepth 20000 in
set_option maxHeartbeats 1000000 in
/-- C7: every elif of scenario 2 is parsed as a nested IfStatement that
is the sole element of the enclosing else_body (ast2 has no elif node),
and the generator renders the nesting as the canonical
close-brace-else-open-brace form with the inner if indented inside. -/
theorem C7_elif_nested_lowering :
    parseSource 300 src2 = some (.ok ast2) ∧
    compileOut 300 freshCompiler src2 =
      some (.ok ("function s(n) \x7b\n  if ((n > 0)) \x7b\n    return 1;\n" ++
        "  \x7d else \x7b\n    if ((n < 0)) \x7b\n      return -1;\n" ++
        "    \x7d else \x7b\n      return 0;\n    \x7d\n  \x7d\n\x7d\n")) := by
  have h1 : tokenize 300 src2 = some toks2 := rfl
  have h2 : parseTop 300 ⟨toks2, 0⟩ = .ok (ast2, ⟨toks2, 40⟩) := rfl
  constructor
  · simp only [parseSource, h1, Option.map, h2]
    rfl
  · simp only [compileOut, compileRun, h1, h2]
    rfl

set_option maxRecDepth 20000 in
set_option maxHeartbeats 1000000 in
/-- C9 counterexample: a source containing an augmented-assignment
operator token that compiles successfully. Inside a class body the
parser consumes and drops every non-def token, so the PLUS_ASSIGN token
emitted by the lexer is skipped and compile returns a class shell,
refuting the claim that every such source fails with a parse error. -/
theorem C9_class_body_counterexample :
    compileOut 300 freshCompiler "class C:\n    x += 1\n" =
      some (.ok "class C \x7b\n\x7d") ∧
    (tokenize 300 "class C:\n    x += 1\n").map (List.map Token.type) =
      some [.CLASS, .IDENTIFIER, .COLON, .NEWLINE, .INDENT, .IDENTIFIER,
        .PLUS_ASSIGN, .NUMBER, .NEWLINE, .DEDENT, .EOF] :=
  ⟨rfl, rfl⟩

set_option maxRecDepth 20000 in
set_option maxHeartbeats 1000000 in
/-- C9 amended: the lexer does emit PLUS_ASSIGN and MINUS_ASSIGN tokens,
and when such a token is reached in expression position no production
consumes it, so parse_primary_expression raises the unexpected-token
ParseError that the driver wraps with the syntax-error prefix; the
claim's universal quantification fails only for occurrences inside a
class body, which are skipped (see the counterexample). -/
theorem C9_aug_assign_expression_position_fails :
    compileOut 300 freshCompiler "x += 1\n" =
      some (.error "Error de sintaxis: Unexpected token: TokenType.PLUS_ASSIGN") ∧
    (tokenize 300 "x += 1\n").map (List.map Token.type) =
      some [.IDENTIFIER, .PLUS_ASSIGN, .NUMBER, .NEWLINE, .EOF] ∧
    compileOut 300 freshCompiler "x -= 1\n" =
      some (.error "Error de sintaxis: Unexpected token: TokenType.MINUS_ASSIGN") ∧
    (tokenize 300 "x -= 1\n").map (List.map Token.type) =
      some [.IDENTIFIER, .MINUS_ASSIGN, .NUMBER, .NEWLINE, .EOF] :=
  ⟨rfl, rfl, rfl, rfl⟩

set_option maxRecDepth 20000 in
set_option maxHeartbeats 1000000 in
/-- C6: every builtin call of the lowering table is emitted exactly in
its tabulated form with no wrapping parentheses, for arbitrary already
lowered arguments; in particular the three-argument range call of
scenario 3 and the print call lower to the claimed texts, and the whole
scenario-3 program compiles to exactly the claimed lines. -/
theorem C6_builtin_call_lowering :
    (∀ a b : Expr, gVisitExpression (.functionCall "print" [a, b]) =
      "console.log(" ++ gVisitExpression a ++ ", " ++ gVisitExpression b ++ ")") ∧
    (∀ x : Expr, gVisitExpression (.functionCall "len" [x]) =
      gVisitExpression x ++ ".length") ∧
    (∀ x : Expr, gVisitExpression (.functionCall "str" [x]) =
      "String(" ++ gVisitExpression x ++ ")") ∧
    (∀ x : Expr, gVisitExpression (.functionCall "int" [x]) =
      "parseInt(" ++ gVisitExpression x ++ ")") ∧
    (∀ x : Expr, gVisitExpression (.functionCall "float" [x]) =
      "parseFloat(" ++ gVisitExpression x ++ ")") ∧
    (∀ x : Expr, gVisitExpression (.functionCall "bool" [x]) =
      "Boolean(" ++ gVisitExpression x ++ ")") ∧
    gVisitExpression (.functionCall "list" []) = "[]" ∧
    (∀ a b : Expr, gVisitExpression (.functionCall "list" [a, b]) =
      "[" ++ gVisitExpression a ++ ", " ++ gVisitExpression b ++ "]") ∧
    gVisitExpression (.functionCall "dict" []) = "\x7b\x7d" ∧
    (∀ x : Expr, gVisitExpression (.functionCall "dict" [x]) =
      "\x7b" ++ gVisitExpression x ++ "\x7d") ∧
    (∀ n : Expr, gVisitExpression (.functionCall "range" [n]) =
      "Array.from(\x7blength: " ++ gVisitExpression n ++ "\x7d, (_, i) => i)") ∧
    (∀ a b : Expr, gVisitExpression (.functionCall "range" [a, b]) =
      "Array.from(\x7blength: " ++ gVisitExpression b ++ " - " ++ gVisitExpression a ++
        "\x7d, (_, i) => i + " ++ gVisitExpression a ++ ")") ∧
    (∀ a b s : Expr, gVisitExpression (.functionCall "range" [a, b, s]) =
      "Array.from(\x7blength: Math.ceil((" ++ gVisitExpression b ++ " - " ++
        gVisitExpression a ++ ") / " ++ gVisitExpression s ++ ")\x7d, (_, i) => " ++
        gVisitExpression a ++ " + i * " ++ gVisitExpression s ++ ")") ∧
    gVisitExpression (.functionCall "range"
      [.literal (.int 0) "number", .literal (.int 10) "number",
       .literal (.int 2) "number"]) =
      "Array.from(\x7blength: Math.ceil((10 - 0) / 2)\x7d, (_, i) => 0 + i * 2)" ∧
    gVisitExpression (.functionCall "print" [.identifier "i"]) = "console.log(i)" ∧
    compileOut 300 freshCompiler srcR =
      some (.ok ("for (const i of Array.from(\x7blength: Math.ceil((10 - 0) / 2)\x7d, " ++
        "(_, i) => 0 + i * 2)) \x7b\n  console.log(i);\n\x7d")) := by
  refine ⟨fun a b => ?_, fun x => rfl, fun x => rfl, fun x => rfl, fun x => rfl,
    fun x => rfl, rfl, fun a b => ?_, rfl, fun x => rfl, fun n => rfl,
    fun a b => ?_, fun a b s => ?_, rfl, rfl, ?_⟩
  · simp [gVisitExpression, gVisitArgs, gVisitFunctionCall, joinSep, strAppendAssoc]
  · simp [gVisitExpression, gVisitArgs, gVisitFunctionCall, joinSep, strAppendAssoc]
  · simp [gVisitExpression, gVisitArgs, gVisitFunctionCall, generateRangeFunction,
      joinSep, strAppendAssoc]
  · simp [gVisitExpression, gVisitArgs, gVisitFunctionCall, generateRangeFunction,
      joinSep, strAppendAssoc]
  · have h1 : tokenize 300 srcR = some toksR := rfl
    have h2 : parseTop 300 ⟨toksR, 0⟩ = .ok (astR, ⟨toksR, 20⟩) := rfl
    simp only [compileOut, compileRun, h1, h2]
    rfl

set_option maxRecDepth 20000 in
set_option maxHeartbeats 1000000 in
/-- C8: for every FunctionCall node, visit_function_call first appends
exactly the diagnostics of callDiagSpec for the callee name (the
undefined-function diagnostic when the name has no visible symbol, the
not-a-function-or-class diagnostic when the symbol kind is neither) and
then analyzes every argument in all cases; and the nine builtin names
are declared as functions in the global scope by the prologue of
analyze, so their call sites contribute no diagnostic. -/
theorem C8_function_call_diagnostics :
    (∀ (name : String) (args : List Expr) (st : AnalyzerState),
      aVisitExpression (.functionCall name args) st =
        aVisitExprList args
          { st with errors := st.errors ++ callDiagSpec st.symbolTable name }) ∧
    (∀ b, b ∈ builtinFunctions →
      lookup (declareBuiltins builtinFunctions freshAnalyzer.symbolTable) b =
        some ⟨b, "function", "scope_0"⟩) ∧
    (∀ b, b ∈ builtinFunctions →
      callDiagSpec (declareBuiltins builtinFunctions freshAnalyzer.symbolTable) b = []) := by
  refine ⟨fun name args st => ?_, fun b hb => ?_, fun b hb => ?_⟩
  · show aVisitExprList args _ = aVisitExprList args _
    congr 1
    cases h : lookup st.symbolTable name with
    | none => simp [callDiagSpec, h, addError]
    | some sym =>
      by_cases hty : sym.type ≠ "function" ∧ sym.type ≠ "class"
      · simp [callDiagSpec, h, hty, addError]
      · simp [callDiagSpec, h, hty, addError]
  · fin_cases hb <;> rfl
  · fin_cases hb <;> rfl

/-- C8 witness: the theorem applied to a concrete builtin name and to a
concrete call on an unknown name with one argument. -/
theorem C8_function_call_diagnostics_witness :
    "print" ∈ builtinFunctions ∧
    lookup (declareBuiltins builtinFunctions freshAnalyzer.symbolTable) "print" =
      some ⟨"print", "function", "scope_0"⟩ ∧
    callDiagSpec (declareBuiltins builtinFunctions freshAnalyzer.symbolTable) "print" = [] ∧
    aVisitExpression (.functionCall "boom" [.identifier "x"]) freshAnalyzer =
      aVisitExprList [.identifier "x"]
        { freshAnalyzer with
          errors := freshAnalyzer.errors ++ callDiagSpec freshAnalyzer.symbolTable "boom" } :=
  ⟨by decide, C8_function_call_diagnostics.2.1 "print" (by decide),
   C8_function_call_diagnostics.2.2 "print" (by decide),
   C8_function_call_diagnostics.1 "boom" [.identifier "x"] freshAnalyzer⟩

set_option maxRecDepth 20000 in
set_option maxHeartbeats 1000000 in
/-- C10: whenever the current token is a NUMBER whose lexeme holds more
than one dot, parse_primary_expression raises the ValueError of float(),
not a ParseError; on the concrete assignment source the driver therefore
reports the generic compilation-error prefix, not the syntax-error
prefix. -/
theorem C10_multidot_number_valueerror :
    (∀ (f : Nat) (p : PState),
      (currentToken p).type = TokenType.NUMBER →
      2 ≤ (currentToken p).value.data.count '.' →
      parsePrimaryExpr (f + 1) p =
        .error (.valueError ("could not convert string to float: " ++ sq ++
          (currentToken p).value ++ sq))) ∧
    compileOut 300 freshCompiler "y = 1.2.3\n" =
      some (.error "Error de compilación: could not convert string to float: \x271.2.3\x27") := by
  refine ⟨fun f p hty hcount => ?_, rfl⟩
  have hm : '.' ∈ (currentToken p).value.data := List.count_pos_iff.mp (by omega)
  have hmatch : matchT p .NUMBER = true := by simp [matchT, hty]
  simp [parsePrimaryExpr, hmatch, hm, hcount]

/-- C10 witness: the theorem applied to the concrete token list whose
current NUMBER token carries the lexeme with two dots. -/
theorem C10_multidot_number_valueerror_witness :
    (currentToken c10state).type = TokenType.NUMBER ∧
    2 ≤ (currentToken c10state).value.data.count '.' ∧
    parsePrimaryExpr 1 c10state =
      .error (.valueError ("could not convert string to float: " ++ sq ++
        (currentToken c10state).value ++ sq)) :=
  ⟨rfl, by decide, C10_multidot_number_valueerror.1 0 c10state rfl (by decide)⟩

end PyJS
